import Mathlib

/-!
A shallow embedding of the EventDock webhook-health GitHub Action
(`src/index.js`) together with theorems about its behavior.

Modelling conventions:
* JavaScript numbers are modelled exactly, as `JsNum`: NaN, the two
  infinities, or a rational value (`ℚ`).  Floating-point rounding of the
  doubles themselves is not modelled; every numeric literal occurring in
  the program and its inputs is decimal and therefore exact here.
* A JSON field read by the code is a `JsField`: absent (`undef`),
  JSON `null`, or a number.  JavaScript coercion rules for `>=`, `<`,
  `===` and property access on `undefined`/`null` are reproduced at each
  use site.
* Arithmetic inside the model is built from `Rat.divInt` and integer
  operations so that every definition evaluates by kernel reduction.
* Effectful steps (`core.setOutput`, `core.warning`, `core.setFailed`,
  the HTTP fetch, the GitHub comment API) are modelled by explicit
  result records and small environment types; throwing JavaScript code
  is modelled with `Except`.
-/

namespace WH

/-- A JavaScript number: NaN, +Infinity, -Infinity, or a finite value
modelled as an exact rational. -/
inductive JsNum where
  | nan
  | posInf
  | negInf
  | fin (q : ℚ)
deriving DecidableEq

/-- A JSON field as the JavaScript code observes it: missing
(`undefined`), `null`, or a number. -/
inductive JsField where
  | undef
  | null
  | num (n : JsNum)
deriving DecidableEq

/-- JavaScript `a >= b` on numbers: any comparison involving NaN is
false; otherwise the usual order with the infinities at the ends. -/
def JsNum.geB : JsNum → JsNum → Bool
  | .nan, _ => false
  | _, .nan => false
  | .posInf, _ => true
  | .negInf, .negInf => true
  | .negInf, _ => false
  | .fin _, .posInf => false
  | .fin _, .negInf => true
  | .fin a, .fin b => decide (b ≤ a)

/-- JavaScript `a < b` on numbers: false whenever either side is NaN. -/
def JsNum.ltB : JsNum → JsNum → Bool
  | .nan, _ => false
  | _, .nan => false
  | .posInf, _ => false
  | .negInf, .negInf => false
  | .negInf, _ => true
  | .fin _, .posInf => true
  | .fin _, .negInf => false
  | .fin a, .fin b => decide (a < b)

/-- JavaScript `ToNumber` on a field used in a relational comparison:
`undefined` becomes NaN, `null` becomes `+0`. -/
def JsField.toNumber : JsField → JsNum
  | .undef => .nan
  | .null => .fin 0
  | .num n => n

/-- Relational `field >= bound` as JavaScript evaluates it. -/
def JsField.geB (a : JsField) (b : JsNum) : Bool :=
  a.toNumber.geB b

/-- Relational `field < bound` as JavaScript evaluates it. -/
def JsField.ltB (a : JsField) (b : JsNum) : Bool :=
  a.toNumber.ltB b

/-- JavaScript strict equality `field === 0`: true only for the number
`0` (`null`, `undefined` and NaN all compare false). -/
def JsField.strictEqZero : JsField → Bool
  | .num (.fin q) => decide (q = 0)
  | _ => false

/-- `determineStatus` from `src/index.js` (lines 40-48):
`successRate >= 99 && dlqCount === 0` gives `healthy`, else
`successRate >= 90` gives `degraded`, else `unhealthy`. -/
def determineStatus (successRate dlqCount : JsField) : String :=
  if successRate.geB (.fin 99) && dlqCount.strictEqZero then "healthy"
  else if successRate.geB (.fin 90) then "degraded"
  else "unhealthy"

/-- `getStatusEmoji` from `src/index.js` (lines 50-57). -/
def getStatusEmoji (status : String) : String :=
  if status = "healthy" then ":white_check_mark:"
  else if status = "degraded" then ":warning:"
  else if status = "unhealthy" then ":x:"
  else ":question:"

/-- Two-digit zero-padding for the fractional part of `toFixed(2)`. -/
def pad2 (n : ℕ) : String :=
  if n < 10 then "0" ++ toString n else toString n

/-- Left-pad a digit list with zeros to length `k`. -/
def padZeros (k : ℕ) (l : List Char) : List Char :=
  List.replicate (k - l.length) '0' ++ l

/-- Drop trailing zero digits (used when rendering fractional parts). -/
def stripZeros (l : List Char) : List Char :=
  (l.reverse.dropWhile (fun c => c = '0')).reverse

/-- Insert a comma after every third digit of a least-significant-first
digit list (helper for en-US thousands grouping). -/
def commaRev : List Char → ℕ → List Char
  | [], _ => []
  | c :: cs, k =>
    if 0 < k ∧ k % 3 = 0 then ',' :: c :: commaRev cs (k + 1)
    else c :: commaRev cs (k + 1)

/-- Thousands-grouped decimal rendering of a natural number, as the
default en-US `toLocaleString` renders integers. -/
def groupedNat (n : ℕ) : String :=
  String.mk (commaRev (toString n).toList.reverse 0).reverse

/-- Round-half-up of `100 * q` as an integer on the magnitude `|q|`,
computed as `⌊100 * |q| + 1/2⌋` on numerator and denominator (kernel
reducible).  This is the digit count ECMAScript `toFixed(2)` uses after
splitting off the sign. -/
def round100Abs (q : ℚ) : ℕ :=
  (Int.fdiv (200 * (q.num.natAbs : ℤ) + (q.den : ℤ)) (2 * (q.den : ℤ))).toNat

/-- Round-half-up of `1000 * |q|` (default `toLocaleString` keeps at
most three fraction digits, rounding ties away from zero). -/
def round1000Abs (q : ℚ) : ℕ :=
  (Int.fdiv (2000 * (q.num.natAbs : ℤ) + (q.den : ℤ)) (2 * (q.den : ℤ))).toNat

/-- JavaScript `Number.prototype.toFixed(2)`: NaN and the infinities
render as their names; a finite value renders sign-first with exactly
two fraction digits, the magnitude rounded half-up. -/
def JsNum.toFixed2 : JsNum → String
  | .nan => "NaN"
  | .posInf => "Infinity"
  | .negInf => "-Infinity"
  | .fin q =>
    let sgn := if q.num < 0 then "-" else ""
    let m := round100Abs q
    sgn ++ toString (m / 100) ++ "." ++ pad2 (m % 100)

/-- JavaScript `Number.prototype.toLocaleString()` in the default en-US
locale: grouped integer part, at most three fraction digits with
trailing zeros dropped; NaN renders as "NaN" and the infinities by the
infinity sign. -/
def JsNum.toLocaleString : JsNum → String
  | .nan => "NaN"
  | .posInf => "∞"
  | .negInf => "-∞"
  | .fin q =>
    let sgn := if q.num < 0 then "-" else ""
    let m := round1000Abs q
    let frac := m % 1000
    sgn ++ groupedNat (m / 1000)
      ++ (if frac = 0 then ""
          else "." ++ String.mk (stripZeros (padZeros 3 (toString frac).toList)))

/-- Smallest `k ≤ 400` with `d ∣ 10 ^ k`, if any.  Every finite value
this program manipulates is a decimal literal scaled by a decimal
exponent, so its denominator is a power of ten and the search
succeeds. -/
def pow10Exp (d : ℕ) : Option ℕ :=
  (List.range 401).find? (fun k => 10 ^ k % d = 0)

/-- JavaScript number-to-string conversion (template literals,
`JSON.stringify` on finite numbers): integers render plainly, other
finite decimals with their exact fraction digits.  A denominator that
is not a power of ten cannot arise from this program's decimal inputs;
it is rendered as an explicit fraction. -/
def JsNum.toStringJs : JsNum → String
  | .nan => "NaN"
  | .posInf => "Infinity"
  | .negInf => "-Infinity"
  | .fin q =>
    if q.den = 1 then toString q.num
    else
      match pow10Exp q.den with
      | some k =>
        let sgn := if q.num < 0 then "-" else ""
        let m := ((q.num.natAbs : ℤ) * 10 ^ k / (q.den : ℤ)).toNat
        sgn ++ toString (m / 10 ^ k) ++ "."
          ++ String.mk (stripZeros (padZeros k (toString (m % 10 ^ k)).toList))
      | none => toString q.num ++ "/" ++ toString q.den

/-- Template-literal interpolation of a field (`${stats.x}`):
`undefined` and `null` interpolate as their names. -/
def JsField.interp : JsField → String
  | .undef => "undefined"
  | .null => "null"
  | .num n => n.toStringJs

/-- `@actions/core` `toCommandValue` applied by `setOutput`: `null` and
`undefined` become the empty string, a number is `JSON.stringify`ed
(NaN and the infinities serialize as "null"). -/
def JsField.toCommandValue : JsField → String
  | .undef => ""
  | .null => ""
  | .num .nan => "null"
  | .num .posInf => "null"
  | .num .negInf => "null"
  | .num (.fin q) => JsNum.toStringJs (.fin q)

/-- A thrown JavaScript error, identified by its message. -/
structure JsError where
  message : String
deriving DecidableEq

/-- Property access `x.toLocaleString()` on a field: throws a TypeError
when the field is `undefined` or `null`. -/
def JsField.callToLocaleString : JsField → Except JsError String
  | .undef => .error ⟨"Cannot read properties of undefined (reading \x27toLocaleString\x27)"⟩
  | .null => .error ⟨"Cannot read properties of null (reading \x27toLocaleString\x27)"⟩
  | .num n => .ok n.toLocaleString

/-- Property access `x.toFixed(2)` on a field: throws a TypeError when
the field is `undefined` or `null`. -/
def JsField.callToFixed2 : JsField → Except JsError String
  | .undef => .error ⟨"Cannot read properties of undefined (reading \x27toFixed\x27)"⟩
  | .null => .error ⟨"Cannot read properties of null (reading \x27toFixed\x27)"⟩
  | .num n => .ok n.toFixed2

/-- ASCII upper-casing, as `String.prototype.toUpperCase()` acts on the
three all-lowercase status labels. -/
def asciiUpper (s : String) : String :=
  String.mk (s.toList.map Char.toUpper)

/-- One monitored endpoint from the API response.  The code reads
`name`, `provider` and `status` only to interpolate or compare them as
strings; `success_rate` is accessed through optional chaining and so is
kept as a `JsField`. -/
structure EndpointStat where
  name : String
  provider : String
  status : String
  success_rate : JsField

/-- The parsed `/v1/health` response as `src/index.js` consumes it.
`pending_events` and `period` are present in the API shape but never
read by the code, so they are omitted from the model.  `endpoints` is
`none` when the field is missing or null. -/
structure HealthSnapshot where
  total_events : JsField
  delivered_events : JsField
  failed_events : JsField
  dlq_count : JsField
  success_rate : JsField
  endpoints_count : JsField
  endpoints : Option (List EndpointStat)

/-- One row of the per-endpoint table (`src/index.js` lines 79-82):
`ep.success_rate?.toFixed(2) || 'N/A'` renders "N/A" for a missing or
null rate (optional chaining yields `undefined`, which is falsy), and
`toFixed(2)` of the number otherwise. -/
def endpointRow (ep : EndpointStat) : String :=
  let epEmoji := if ep.status = "active" then ":green_circle:" else ":yellow_circle:"
  let rate := match ep.success_rate with
    | .num n => n.toFixed2
    | _ => "N/A"
  "| " ++ ep.name ++ " | " ++ ep.provider ++ " | " ++ epEmoji ++ " "
    ++ ep.status ++ " | " ++ rate ++ "% |\n"

/-- `generateReport` from `src/index.js` (lines 59-90).  The summary
table calls `toLocaleString`/`toFixed` on the five top-level numeric
fields in source order, each of which throws when the field is missing
or null; `endpoints_count` is only interpolated; the endpoint section
is guarded by `stats.endpoints && stats.endpoints.length > 0`. -/
def generateReport (stats : HealthSnapshot) : Except JsError String := do
  let status := determineStatus stats.success_rate stats.dlq_count
  let emoji := getStatusEmoji status
  let te ← stats.total_events.callToLocaleString
  let de ← stats.delivered_events.callToLocaleString
  let fe ← stats.failed_events.callToLocaleString
  let sr ← stats.success_rate.callToFixed2
  let dq ← stats.dlq_count.callToLocaleString
  let head :=
    "## " ++ emoji ++ " EventDock Webhook Health Report\n\n"
      ++ "**Status:** " ++ asciiUpper status ++ "\n\n"
      ++ "### Last 24 Hours\n\n"
      ++ "| Metric | Value |\n"
      ++ "|--------|-------|\n"
      ++ "| Total Events | " ++ te ++ " |\n"
      ++ "| Delivered | " ++ de ++ " |\n"
      ++ "| Failed | " ++ fe ++ " |\n"
      ++ "| Success Rate | " ++ sr ++ "% |\n"
      ++ "| In DLQ | " ++ dq ++ " |\n"
      ++ "| Endpoints | " ++ stats.endpoints_count.interp ++ " |\n\n"
  let epSection :=
    match stats.endpoints with
    | some eps =>
      if eps.length > 0 then
        "### Endpoints\n\n"
          ++ "| Name | Provider | Status | Success Rate |\n"
          ++ "|------|----------|--------|-------------|\n"
          ++ String.join (eps.map endpointRow) ++ "\n"
      else ""
    | none => ""
  pure (head ++ epSection ++ "---\n"
    ++ "*Powered by [EventDock](https://eventdock.app) - Reliable Webhook Infrastructure*\n")

/-- Does `needle` occur at the head of the character list? -/
def startsWithL : List Char → List Char → Bool
  | [], _ => true
  | _ :: _, [] => false
  | a :: as, b :: bs => a == b && startsWithL as bs

/-- Does `needle` occur anywhere in the character list? -/
def containsL (needle : List Char) : List Char → Bool
  | [] => needle.isEmpty
  | b :: bs => startsWithL needle (b :: bs) || containsL needle bs

/-- JavaScript `hay.includes(needle)`: substring containment. -/
def strIncludes (hay needle : String) : Bool :=
  containsL needle.toList hay.toList

/-- The marker substring `postPRComment` scans for
(`src/index.js` line 112). -/
def marker : String := "EventDock Webhook Health Report"

/-- A GitHub issue comment: its numeric id and body text.  The list of
comments on a pull request is ordered by creation, which is the order
`listComments` returns. -/
structure Comment where
  id : ℕ
  body : String
deriving DecidableEq

/-- The predicate `postPRComment` applies to each existing comment:
`comment.body.includes('EventDock Webhook Health Report')`. -/
def isBotComment (c : Comment) : Bool :=
  strIncludes c.body marker

/-- The `comments.find(...)` scan of `postPRComment`
(`src/index.js` lines 111-113): first comment containing the marker. -/
def findBotComment (comments : List Comment) : Option Comment :=
  comments.find? isBotComment

/-- The comment-list effect of `postPRComment` (`src/index.js` lines
104-131) when running in a pull-request context with a working comment
API: if some comment contains the marker, `updateComment` replaces the
body of the comment with that id; otherwise `createComment` appends a
fresh comment (GitHub assigns it the id `newId`) with the report as its
body.  The early `return` outside a pull request and the API-failure
path are modelled at the orchestrator level (`PubEnv`). -/
def postPRComment (comments : List Comment) (report : String) (newId : ℕ) :
    List Comment :=
  match findBotComment comments with
  | some bot => comments.map (fun c => if c.id = bot.id then { c with body := report } else c)
  | none => comments ++ [{ id := newId, body := report }]

/-- Number of live comments on the PR containing the marker. -/
def countMarker (comments : List Comment) : ℕ :=
  comments.countP isBotComment

/-- JavaScript whitespace skipped by `parseFloat` (space, tab, line
feed, carriage return, vertical tab, form feed). -/
def isWsChar (c : Char) : Bool :=
  c == ' ' || c == '\t' || c == '\n' || c == '\r'
    || c == Char.ofNat 11 || c == Char.ofNat 12

/-- Numeric value of a list of decimal digit characters. -/
def digitsVal (cs : List Char) : ℕ :=
  cs.foldl (fun a c => 10 * a + (c.toNat - 48)) 0

/-- Exponent suffix of a decimal literal as `parseFloat` reads it: an
optional sign then digits; if no digit follows, the suffix is ignored
(exponent 0). -/
def parseExpSuffix (cs : List Char) : ℤ :=
  let sgn : ℤ := match cs with
    | '-' :: _ => -1
    | _ => 1
  let t := match cs with
    | '+' :: t => t
    | '-' :: t => t
    | _ => cs
  let ds := t.takeWhile Char.isDigit
  if ds.isEmpty then 0 else sgn * (digitsVal ds : ℤ)

/-- JavaScript `parseFloat`: skip leading whitespace, read an optional
sign, then the longest prefix that is `Infinity` or a decimal literal
(digits, optional fraction, optional exponent); NaN when no digits are
found.  The value is exact: the model keeps the full decimal value
rather than the nearest double. -/
def parseFloat (s : String) : JsNum :=
  let cs := s.toList.dropWhile isWsChar
  let neg : Bool := match cs with
    | '-' :: _ => true
    | _ => false
  let cs := match cs with
    | '+' :: t => t
    | '-' :: t => t
    | _ => cs
  if cs.take 8 = "Infinity".toList then
    if neg then .negInf else .posInf
  else
    let intPart := cs.takeWhile Char.isDigit
    let rest := cs.drop intPart.length
    let fracPart := match rest with
      | '.' :: t => t.takeWhile Char.isDigit
      | _ => []
    let rest2 := match rest with
      | '.' :: t => t.drop fracPart.length
      | _ => rest
    if intPart.isEmpty && fracPart.isEmpty then .nan
    else
      let e : ℤ := match rest2 with
        | 'e' :: t => parseExpSuffix t
        | 'E' :: t => parseExpSuffix t
        | _ => 0
      let base : ℤ := (digitsVal intPart * 10 ^ fracPart.length + digitsVal fracPart : ℕ)
      let signedBase : ℤ := if neg then -base else base
      if 0 ≤ e then
        .fin (Rat.divInt (signedBase * 10 ^ e.toNat) (10 ^ fracPart.length))
      else
        .fin (Rat.divInt signedBase (10 ^ fracPart.length * 10 ^ (-e).toNat))

/-- The action's inputs as `core.getInput` returns them in `run`
(`src/index.js` lines 137-143): absent inputs come back as the empty
string.  (`getInput`'s default whitespace trimming is not modelled; the
fields hold the already-retrieved strings.) -/
structure Inputs where
  apiKey : String
  endpointId : String
  apiUrl : String
  failOnUnhealthy : String
  failThreshold : String
  postComment : String
  githubToken : String

/-- An HTTP response as `fetchWithTimeout` resolves it: the status
code, the body text (read by the non-2xx branch), and the outcome of
`response.json()` — `.error` carries the message of the parse error
that call would throw. -/
structure HttpResponse where
  status : ℕ
  bodyText : String
  json : Except String HealthSnapshot

/-- Outcome of the awaited `fetchWithTimeout` call: either the fetch
itself rejected (network failure, or the abort fired — the message is
the thrown error's), or a response arrived. -/
inductive FetchOutcome where
  | thrown (msg : String)
  | resp (r : HttpResponse)

/-- `getHealthStats` from `src/index.js` (lines 19-38), over a fetch
outcome: a rejected fetch propagates; `response.ok` (status in
200..299) selects between `response.json()` and throwing
`API request failed: <status> - <text>`. -/
def getHealthStats (f : FetchOutcome) : Except String HealthSnapshot :=
  match f with
  | .thrown msg => .error msg
  | .resp r =>
    if 200 ≤ r.status ∧ r.status ≤ 299 then r.json
    else .error ("API request failed: " ++ toString r.status ++ " - " ++ r.bodyText)

/-- The GitHub side of the publish step: the workflow is not running on
a pull request (`context.payload.pull_request` absent), or it is and
the comment API works over the given comment list (with `newId` the id
a created comment would get), or the comment API throws with the given
message. -/
inductive PubEnv where
  | notPR
  | pr (comments : List Comment) (newId : ℕ)
  | apiFail (msg : String)

/-- Observable result of one `run()` invocation: the outputs set (in
order, as key-value pairs), the warnings logged, the `setFailed`
message if any, and the final PR comment list when one exists. -/
structure RunResult where
  outputs : List (String × String)
  warnings : List String
  failed : Option String
  comments : Option (List Comment)

/-- The comment list visible before the run touches it. -/
def PubEnv.initial : PubEnv → Option (List Comment)
  | .pr cs _ => some cs
  | _ => none

/-- Lines 175-181 of `src/index.js`: when `post-comment` is enabled, a
missing `github-token` only logs a warning; otherwise `postPRComment`
runs — a no-op outside a pull request, an upsert on the comment list in
one, and a thrown error if the comment API fails.  Returns the warnings
logged and the resulting comment list. -/
def publishStep (postComment : Bool) (token : String) (pub : PubEnv)
    (report : String) : Except String (List String × Option (List Comment)) :=
  if postComment then
    if token = "" then
      .ok (["github-token is required to post PR comments"], pub.initial)
    else
      match pub with
      | .notPR => .ok ([], none)
      | .pr cs newId => .ok ([], some (postPRComment cs report newId))
      | .apiFail msg => .error msg
  else .ok ([], pub.initial)

/-- `run` from `src/index.js` (lines 134-211).  The whole body sits in
one try/catch whose handler calls
`core.setFailed('Action failed: ' + error.message)`.  In order: the
required `api-key` input (getInput throws when it is absent); parsing
of the boolean and threshold inputs; `getHealthStats`;
`determineStatus`; the `core.info` log of `success_rate.toFixed(2)`
(line 157, which throws before any output is set when the field is
missing or null); the seven `setOutput` calls; `generateReport` and the
`report` output; the publish step; the job summary (its own try/catch
swallows failures, so it has no observable effect here); and finally
the `fail-on-unhealthy` threshold gate. -/
def run (inp : Inputs) (fetch : FetchOutcome) (pub : PubEnv) : RunResult :=
  if inp.apiKey = "" then
    { outputs := [], warnings := [],
      failed := some "Action failed: Input required and not supplied: api-key",
      comments := pub.initial }
  else
    let failOnUnhealthy := inp.failOnUnhealthy = "true"
    let failThreshold :=
      parseFloat (if inp.failThreshold = "" then "90" else inp.failThreshold)
    let postComment := inp.postComment = "true"
    match getHealthStats fetch with
    | Except.error msg =>
      { outputs := [], warnings := [], failed := some ("Action failed: " ++ msg),
        comments := pub.initial }
    | Except.ok stats =>
      let status := determineStatus stats.success_rate stats.dlq_count
      match stats.success_rate.callToFixed2 with
      | Except.error e =>
        { outputs := [], warnings := [], failed := some ("Action failed: " ++ e.message),
          comments := pub.initial }
      | Except.ok rateStr =>
        let outs7 : List (String × String) :=
          [("status", status),
           ("success-rate", rateStr),
           ("total-events", stats.total_events.toCommandValue),
           ("delivered-events", stats.delivered_events.toCommandValue),
           ("failed-events", stats.failed_events.toCommandValue),
           ("dlq-count", stats.dlq_count.toCommandValue),
           ("endpoints-checked", stats.endpoints_count.toCommandValue)]
        match generateReport stats with
        | Except.error e =>
          { outputs := outs7, warnings := [],
            failed := some ("Action failed: " ++ e.message), comments := pub.initial }
        | Except.ok report =>
          let outs := outs7 ++ [("report", report)]
          match publishStep postComment inp.githubToken pub report with
          | Except.error msg =>
            { outputs := outs, warnings := [],
              failed := some ("Action failed: " ++ msg), comments := pub.initial }
          | Except.ok (warns, cs) =>
            if failOnUnhealthy && stats.success_rate.ltB failThreshold then
              { outputs := outs, warnings := warns,
                failed := some ("Webhook health check failed: success rate " ++ rateStr
                  ++ "% is below threshold " ++ failThreshold.toStringJs ++ "%"),
                comments := cs }
            else
              { outputs := outs, warnings := warns, failed := none, comments := cs }

/-- The ordered output keys a fully successful run sets. -/
def eightKeys : List String :=
  ["status", "success-rate", "total-events", "delivered-events",
   "failed-events", "dlq-count", "endpoints-checked", "report"]

/-- A snapshot whose `total_events` field is JSON null and whose other
fields are all ordinary numbers. -/
def snapNullTotal : HealthSnapshot :=
  { total_events := .null
    delivered_events := .num (.fin 5)
    failed_events := .num (.fin 5)
    dlq_count := .num (.fin 0)
    success_rate := .num (.fin 80)
    endpoints_count := .num (.fin 1)
    endpoints := none }

/-- Scenario snapshot: 80% success rate, 10 events in the DLQ. -/
def stats80 : HealthSnapshot :=
  { total_events := .num (.fin 1000), delivered_events := .num (.fin 800),
    failed_events := .num (.fin 200), dlq_count := .num (.fin 10),
    success_rate := .num (.fin 80), endpoints_count := .num (.fin 2),
    endpoints := none }

/-- Scenario snapshot: 99.5% success rate, empty DLQ. -/
def stats995 : HealthSnapshot :=
  { total_events := .num (.fin 1000), delivered_events := .num (.fin 995),
    failed_events := .num (.fin 5), dlq_count := .num (.fin 0),
    success_rate := .num (.fin (Rat.divInt 199 2)), endpoints_count := .num (.fin 2),
    endpoints := none }

/-- Scenario snapshot: 0% success rate, 50 events in the DLQ. -/
def stats0 : HealthSnapshot :=
  { total_events := .num (.fin 1000), delivered_events := .num (.fin 0),
    failed_events := .num (.fin 1000), dlq_count := .num (.fin 50),
    success_rate := .num (.fin 0), endpoints_count := .num (.fin 1),
    endpoints := none }

/-- Inputs enabling the threshold gate at 90, comments disabled. -/
def inpGate : Inputs :=
  { apiKey := "k", endpointId := "", apiUrl := "", failOnUnhealthy := "true",
    failThreshold := "90", postComment := "", githubToken := "" }

/-- Inputs enabling the gate and PR-comment publishing. -/
def inpPub : Inputs :=
  { apiKey := "k", endpointId := "", apiUrl := "", failOnUnhealthy := "true",
    failThreshold := "90", postComment := "true", githubToken := "t" }

/-- Inputs requesting a PR comment without supplying a token. -/
def inpNoTok : Inputs :=
  { apiKey := "k", endpointId := "", apiUrl := "", failOnUnhealthy := "",
    failThreshold := "", postComment := "true", githubToken := "" }

/-- Inputs with the gate enabled but an unparseable threshold. -/
def inpBadThreshold : Inputs :=
  { apiKey := "k", endpointId := "", apiUrl := "", failOnUnhealthy := "true",
    failThreshold := "abc", postComment := "", githubToken := "" }

/-- A 200 response whose body parses to the given snapshot. -/
def resp200of (s : HealthSnapshot) : FetchOutcome :=
  .resp { status := 200, bodyText := "", json := Except.ok s }

/-- Scenario D response: HTTP 500 with body "internal error". -/
def resp500 : FetchOutcome :=
  .resp { status := 500, bodyText := "internal error", json := Except.error "x" }

-- THEOREMS-MARKER

/-- C1: for every finite successRate `q` and integer dlqCount `d`, the
classifier returns "healthy" exactly when `99 ≤ q` and `d = 0`,
otherwise "degraded" exactly when `90 ≤ q`, otherwise "unhealthy"; and
for NaN successRate both comparisons fail, so the result is
"unhealthy" whatever the dlqCount field holds. -/
theorem C1_determineStatus_spec :
    (∀ (q : ℚ) (d : ℤ),
      (determineStatus (.num (.fin q)) (.num (.fin (d : ℚ))) = "healthy"
          ↔ (99 ≤ q ∧ d = 0))
      ∧ (determineStatus (.num (.fin q)) (.num (.fin (d : ℚ))) = "degraded"
          ↔ (¬(99 ≤ q ∧ d = 0) ∧ 90 ≤ q))
      ∧ (determineStatus (.num (.fin q)) (.num (.fin (d : ℚ))) = "unhealthy"
          ↔ (¬(99 ≤ q ∧ d = 0) ∧ ¬ 90 ≤ q)))
    ∧ (∀ d : JsField, determineStatus (.num .nan) d = "unhealthy") := by
  constructor
  · intro q d
    by_cases h99 : (99 : ℚ) ≤ q
    · by_cases hd : d = 0
      · simp [determineStatus, JsField.geB, JsField.toNumber, JsNum.geB,
          JsField.strictEqZero, h99, hd]
      · have h90 : (90 : ℚ) ≤ q := le_trans (by norm_num) h99
        have hdq : ¬ ((d : ℚ) = 0) := by exact_mod_cast hd
        simp [determineStatus, JsField.geB, JsField.toNumber, JsNum.geB,
          JsField.strictEqZero, h99, hd, h90, hdq]
    · by_cases h90 : (90 : ℚ) ≤ q
      · simp [determineStatus, JsField.geB, JsField.toNumber, JsNum.geB,
          JsField.strictEqZero, h99, h90]
      · simp [determineStatus, JsField.geB, JsField.toNumber, JsNum.geB,
          JsField.strictEqZero, h99, h90]
  · intro d
    rfl

/-- C7 counterexample: the renderer does not tolerate a null top-level
numeric field.  On a snapshot whose `total_events` is null (all other
fields ordinary numbers), `generateReport` throws a TypeError from
`stats.total_events.toLocaleString()`, refuting the claim that the
renderer completes without throwing for any missing or null numeric
field. -/
theorem C7_counterexample_null_total_events :
    generateReport snapNullTotal
      = .error ⟨"Cannot read properties of null (reading \x27toLocaleString\x27)"⟩ :=
  rfl

/-- C7 amended: the classifier is total and always yields one of the
three labels for arbitrary field values, and the renderer completes
without throwing whenever the five top-level numeric fields
(`total_events`, `delivered_events`, `failed_events`, `success_rate`,
`dlq_count`) are numbers — tolerating a missing `endpoints` list, a
missing or null per-endpoint `success_rate` (rendered "N/A"), and any
`endpoints_count` — but a missing or null top-level numeric field makes
the renderer throw. -/
theorem C7_amended_defensive_rendering :
    (∀ a b : JsField,
      determineStatus a b = "healthy" ∨ determineStatus a b = "degraded"
        ∨ determineStatus a b = "unhealthy")
    ∧ (∀ (stats : HealthSnapshot) (n₁ n₂ n₃ n₄ n₅ : JsNum),
        stats.total_events = .num n₁ →
        stats.delivered_events = .num n₂ →
        stats.failed_events = .num n₃ →
        stats.success_rate = .num n₄ →
        stats.dlq_count = .num n₅ →
        ∃ r, generateReport stats = .ok r) := by
  constructor
  · intro a b
    unfold determineStatus
    by_cases h1 : (a.geB (.fin 99) && b.strictEqZero) = true
    · simp [h1]
    · by_cases h2 : a.geB (.fin 90) = true <;> simp [h1, h2]
  · intro stats n₁ n₂ n₃ n₄ n₅ h1 h2 h3 h4 h5
    simp only [generateReport, h1, h2, h3, h4, h5, JsField.callToLocaleString,
      JsField.callToFixed2, bind, Except.bind, pure, Except.pure]
    exact ⟨_, rfl⟩

/-- C7 amended, witness: a concrete snapshot with all five numeric
fields present, one endpoint lacking its `success_rate`, renders
without throwing; and the classifier is exercised at fully
degenerate (`undefined`) arguments. -/
theorem C7_amended_witness :
    (determineStatus .undef .undef = "healthy"
      ∨ determineStatus .undef .undef = "degraded"
      ∨ determineStatus .undef .undef = "unhealthy")
    ∧ ∃ r,
        generateReport
          { total_events := .num (.fin 1000)
            delivered_events := .num (.fin 995)
            failed_events := .num (.fin 5)
            dlq_count := .num (.fin 0)
            success_rate := .num (.fin (Rat.divInt 199 2))
            endpoints_count := .num (.fin 2)
            endpoints := some [{ name := "Stripe", provider := "stripe",
                                 status := "active", success_rate := .undef }] }
          = .ok r :=
  ⟨C7_amended_defensive_rendering.1 .undef .undef,
   C7_amended_defensive_rendering.2 _ (.fin 1000) (.fin 995) (.fin 5)
     (.fin (Rat.divInt 199 2)) (.fin 0) rfl rfl rfl rfl rfl⟩

/-- A map that fixes every member of a list is the identity on it. -/
theorem map_eq_self_of {α : Type} (f : α → α) (l : List α)
    (h : ∀ x ∈ l, f x = x) : l.map f = l := by
  induction l with
  | nil => rfl
  | cons a as ih =>
    simp only [List.map_cons, h a (List.mem_cons_self a as),
      ih (fun x hx => h x (List.mem_cons_of_mem a hx))]

/-- `countP` depends only on the predicate's values on the list. -/
theorem countP_ext {α : Type} (p q : α → Bool) (l : List α)
    (h : ∀ x ∈ l, p x = q x) : l.countP p = l.countP q := by
  induction l with
  | nil => rfl
  | cons a as ih =>
    rw [List.countP_cons, List.countP_cons, h a (List.mem_cons_self a as),
      ih (fun x hx => h x (List.mem_cons_of_mem a hx))]

/-- `find?` returns the head of the first matching suffix. -/
theorem find?_append_cons_of {α : Type} (p : α → Bool) (l₁ : List α) (c : α)
    (l₂ : List α) (h₁ : ∀ x ∈ l₁, p x = false) (hc : p c = true) :
    (l₁ ++ c :: l₂).find? p = some c := by
  induction l₁ with
  | nil => simp [List.find?_cons, hc]
  | cons a as ih =>
    have ha : p a = false := h₁ a (List.mem_cons_self a as)
    simp only [List.cons_append, List.find?_cons, ha]
    exact ih (fun x hx => h₁ x (List.mem_cons_of_mem a hx))

/-- When the first marker-bearing comment is `c`, the upsert replaces
exactly `c`'s body with the report and leaves every other comment
untouched (comment ids on a PR are distinct). -/
theorem postPRComment_update (report : String) (newId : ℕ)
    (l₁ : List Comment) (c : Comment) (l₂ : List Comment)
    (hnodup : ((l₁ ++ c :: l₂).map Comment.id).Nodup)
    (h₁ : ∀ x ∈ l₁, isBotComment x = false)
    (hc : isBotComment c = true) :
    postPRComment (l₁ ++ c :: l₂) report newId
      = l₁ ++ { c with body := report } :: l₂ := by
  unfold postPRComment findBotComment
  rw [find?_append_cons_of isBotComment l₁ c l₂ h₁ hc]
  rw [List.map_append] at hnodup
  have hsplit := List.nodup_append.mp hnodup
  have hid1 : c.id ∉ l₁.map Comment.id := by
    intro hmem
    exact hsplit.2.2 hmem (by simp)
  have hid2 : c.id ∉ l₂.map Comment.id := by
    have := hsplit.2.1
    rw [List.map_cons, List.nodup_cons] at this
    exact this.1
  have e₁ : l₁.map (fun x => if x.id = c.id then { x with body := report } else x) = l₁ :=
    map_eq_self_of _ _ (fun x hx => by
      have hne : x.id ≠ c.id := fun he => hid1 (he ▸ List.mem_map_of_mem Comment.id hx)
      simp [hne])
  have e₂ : l₂.map (fun x => if x.id = c.id then { x with body := report } else x) = l₂ :=
    map_eq_self_of _ _ (fun x hx => by
      have hne : x.id ≠ c.id := fun he => hid2 (he ▸ List.mem_map_of_mem Comment.id hx)
      simp [hne])
  simp [e₁, e₂]

/-- When no existing comment carries the marker, the upsert appends one
fresh comment holding the report. -/
theorem postPRComment_create (comments : List Comment) (report : String) (newId : ℕ)
    (h : ∀ x ∈ comments, isBotComment x = false) :
    postPRComment comments report newId
      = comments ++ [{ id := newId, body := report }] := by
  unfold postPRComment findBotComment
  rw [List.find?_eq_none.mpr (fun x hx => by simp [h x hx])]

/-- The upsert preserves "at most one marker comment", provided the
report itself carries the marker (every rendered report does: the
marker is its heading) and ids are distinct. -/
theorem countMarker_postPRComment (comments : List Comment) (report : String)
    (newId : ℕ) (hrep : strIncludes report marker = true)
    (hnodup : (comments.map Comment.id).Nodup)
    (hle : countMarker comments ≤ 1) :
    countMarker (postPRComment comments report newId) ≤ 1 := by
  unfold postPRComment
  cases hfind : findBotComment comments with
  | none =>
    have h0 : ∀ x ∈ comments, isBotComment x = false := by
      intro x hx
      have := List.find?_eq_none.mp hfind x hx
      simpa using this
    unfold countMarker
    rw [List.countP_append]
    have hz : comments.countP isBotComment = 0 :=
      List.countP_eq_zero.mpr (fun x hx => by simp [h0 x hx])
    simp [hz, List.countP_cons, isBotComment, hrep, countMarker]
  | some bot =>
    have hbotp : isBotComment bot = true := List.find?_some hfind
    have hbotmem : bot ∈ comments := List.mem_of_find?_eq_some hfind
    unfold countMarker
    rw [List.countP_map,
      countP_ext _ isBotComment comments (fun x hx => by
        by_cases hxid : x.id = bot.id
        · have hx_eq : x = bot :=
            List.inj_on_of_nodup_map hnodup hx hbotmem hxid
          subst hx_eq
          have hb : strIncludes x.body marker = true := hbotp
          simp [Function.comp, isBotComment, hrep, hb]
        · simp [Function.comp, isBotComment, hxid])]
    exact hle

/-- Inside or outside a pull request, a publish step whose comment API
works returns the same warnings and never throws. -/
theorem publishStep_notPR_pr (pc : Bool) (token : String) (cs : List Comment)
    (newId : ℕ) (report : String) :
    ∃ w cs1 cs2, publishStep pc token PubEnv.notPR report = .ok (w, cs1)
      ∧ publishStep pc token (PubEnv.pr cs newId) report = .ok (w, cs2) := by
  cases pc with
  | false => exact ⟨[], none, some cs, rfl, rfl⟩
  | true =>
    by_cases htok : token = ""
    · refine ⟨["github-token is required to post PR comments"], none, some cs, ?_, ?_⟩ <;>
        simp [publishStep, htok, PubEnv.initial]
    · refine ⟨[], none, some (postPRComment cs report newId), ?_, ?_⟩ <;>
        simp [publishStep, htok]

/-- C6: the publisher is an upsert keyed by the marker substring.  If
some comment on the PR contains the marker, the first such comment (in
listing order) has its body replaced wholesale by the report and
nothing else changes; otherwise exactly one new comment is appended.
Consequently a PR that has at most one marker comment still has at most
one after any run, however many times the step repeats.  Outside a
pull-request context the publish step is a no-op that never fails the
run: a run in a non-PR context has the same failure status, outputs and
warnings as one whose publish succeeds on a PR. -/
theorem C6_publish_upsert :
    (∀ (report : String) (newId : ℕ) (l₁ : List Comment) (c : Comment) (l₂ : List Comment),
      ((l₁ ++ c :: l₂).map Comment.id).Nodup →
      (∀ x ∈ l₁, isBotComment x = false) →
      isBotComment c = true →
      postPRComment (l₁ ++ c :: l₂) report newId = l₁ ++ { c with body := report } :: l₂)
    ∧ (∀ (comments : List Comment) (report : String) (newId : ℕ),
      (∀ x ∈ comments, isBotComment x = false) →
      postPRComment comments report newId = comments ++ [{ id := newId, body := report }])
    ∧ (∀ (comments : List Comment) (report : String) (newId : ℕ),
      strIncludes report marker = true →
      (comments.map Comment.id).Nodup →
      countMarker comments ≤ 1 →
      countMarker (postPRComment comments report newId) ≤ 1)
    ∧ (∀ (inp : Inputs) (f : FetchOutcome) (cs : List Comment) (newId : ℕ),
      (run inp f PubEnv.notPR).failed = (run inp f (PubEnv.pr cs newId)).failed
      ∧ (run inp f PubEnv.notPR).outputs = (run inp f (PubEnv.pr cs newId)).outputs
      ∧ (run inp f PubEnv.notPR).warnings = (run inp f (PubEnv.pr cs newId)).warnings) := by
  refine ⟨fun report newId l₁ c l₂ hn h₁ hc =>
      postPRComment_update report newId l₁ c l₂ hn h₁ hc,
    fun comments report newId h => postPRComment_create comments report newId h,
    fun comments report newId hrep hn hle =>
      countMarker_postPRComment comments report newId hrep hn hle,
    fun inp f cs newId => ?_⟩
  by_cases hkey : inp.apiKey = ""
  · simp [run, hkey]
  · cases hf : getHealthStats f with
    | error m => simp [run, hkey, hf]
    | ok stats =>
      cases hfx : stats.success_rate.callToFixed2 with
      | error e => simp [run, hkey, hf, hfx]
      | ok rateStr =>
        cases hr : generateReport stats with
        | error e => simp [run, hkey, hf, hfx, hr]
        | ok rep =>
          obtain ⟨w, cs1, cs2, hp1, hp2⟩ :=
            publishStep_notPR_pr (inp.postComment = "true") inp.githubToken cs newId rep
          by_cases hg : (decide (inp.failOnUnhealthy = "true")
              && stats.success_rate.ltB (parseFloat
                (if inp.failThreshold = "" then "90" else inp.failThreshold))) = true
          · simp [run, hkey, hf, hfx, hr, hp1, hp2, hg]
          · simp [run, hkey, hf, hfx, hr, hp1, hp2, hg]

/-- C6 witness: on a PR whose second comment contains the marker, that
comment's body is replaced in place; with no marker comment a single
new one is appended; the at-most-one invariant holds after an append;
and a concrete non-PR run has the same failure status as the same run
publishing on a PR. -/
theorem C6_publish_upsert_witness :
    postPRComment
        [{ id := 1, body := "hello" },
         { id := 2, body := "x EventDock Webhook Health Report y" },
         { id := 3, body := "bye" }] "NEW" 9
      = [{ id := 1, body := "hello" },
         { id := 2, body := "NEW" },
         { id := 3, body := "bye" }]
    ∧ postPRComment [{ id := 1, body := "hello" }] "NEW" 9
      = [{ id := 1, body := "hello" }, { id := 9, body := "NEW" }]
    ∧ countMarker (postPRComment [{ id := 1, body := "hello" }]
        "a EventDock Webhook Health Report b" 9) ≤ 1
    ∧ (run { apiKey := "k", endpointId := "", apiUrl := "", failOnUnhealthy := "",
             failThreshold := "", postComment := "true", githubToken := "t" }
        (.thrown "oops") PubEnv.notPR).failed
      = (run { apiKey := "k", endpointId := "", apiUrl := "", failOnUnhealthy := "",
               failThreshold := "", postComment := "true", githubToken := "t" }
        (.thrown "oops") (PubEnv.pr [] 5)).failed :=
  ⟨C6_publish_upsert.1 "NEW" 9 [{ id := 1, body := "hello" }]
      { id := 2, body := "x EventDock Webhook Health Report y" }
      [{ id := 3, body := "bye" }] (by decide) (by decide) (by decide),
   C6_publish_upsert.2.1 [{ id := 1, body := "hello" }] "NEW" 9 (by decide),
   C6_publish_upsert.2.2.1 [{ id := 1, body := "hello" }]
      "a EventDock Webhook Health Report b" 9 (by decide) (by decide) (by decide),
   (C6_publish_upsert.2.2.2 _ (.thrown "oops") [] 5).1⟩

/-- C9: the marker scan is bare substring containment of the phrase
"EventDock Webhook Health Report" anywhere in a comment body, so the
first comment containing that phrase — regardless of who wrote it or
where in the body the phrase sits — is selected and its entire body is
replaced by the new report. -/
theorem C9_marker_scan_substring :
    marker = "EventDock Webhook Health Report"
    ∧ (∀ (c : Comment), isBotComment c = strIncludes c.body marker)
    ∧ (∀ (report : String) (newId : ℕ) (l₁ : List Comment) (c : Comment) (l₂ : List Comment),
      ((l₁ ++ c :: l₂).map Comment.id).Nodup →
      (∀ x ∈ l₁, strIncludes x.body marker = false) →
      strIncludes c.body marker = true →
      postPRComment (l₁ ++ c :: l₂) report newId = l₁ ++ { c with body := report } :: l₂) :=
  ⟨rfl, fun _ => rfl,
   fun report newId l₁ c l₂ hn h₁ hc => postPRComment_update report newId l₁ c l₂ hn h₁ hc⟩

/-- C9 witness: a human-written comment that merely mentions the report
heading mid-sentence is picked up by the scan and its whole body is
overwritten by the report. -/
theorem C9_marker_scan_witness :
    postPRComment
        [{ id := 7, body := "Please check the EventDock Webhook Health Report before merging" }]
        "## :x: EventDock Webhook Health Report" 9
      = [{ id := 7, body := "## :x: EventDock Webhook Health Report" }] :=
  C9_marker_scan_substring.2.2 "## :x: EventDock Webhook Health Report" 9 []
    { id := 7, body := "Please check the EventDock Webhook Health Report before merging" }
    [] (by decide) (by decide) (by decide)

/-- The renderer succeeds whenever the five top-level numeric fields
are numbers. -/
theorem generateReport_ok_of_num (stats : HealthSnapshot) (n₁ n₂ n₃ n₄ n₅ : JsNum)
    (h1 : stats.total_events = .num n₁) (h2 : stats.delivered_events = .num n₂)
    (h3 : stats.failed_events = .num n₃) (h4 : stats.success_rate = .num n₄)
    (h5 : stats.dlq_count = .num n₅) :
    ∃ r, generateReport stats = Except.ok r := by
  simp only [generateReport, h1, h2, h3, h4, h5, JsField.callToLocaleString,
    JsField.callToFixed2, bind, Except.bind, pure, Except.pure]
  exact ⟨_, rfl⟩

/-- A publish step over a working comment API (or no publish at all)
never throws. -/
theorem publishStep_ok_of_safe (pc : Bool) (token : String) (pub : PubEnv)
    (report : String) (h : ∀ msg, pub ≠ PubEnv.apiFail msg) :
    ∃ w cs, publishStep pc token pub report = Except.ok (w, cs) := by
  cases pub with
  | apiFail m => exact absurd rfl (h m)
  | notPR =>
    obtain ⟨w, cs1, _, hp1, _⟩ := publishStep_notPR_pr pc token [] 0 report
    exact ⟨w, cs1, hp1⟩
  | pr cs newId =>
    obtain ⟨w, _, cs2, _, hp2⟩ := publishStep_notPR_pr pc token cs newId report
    exact ⟨w, cs2, hp2⟩

/-- Reduction of `run` along the fully successful path: required input
present, fetch parsed, numeric success rate, report rendered, publish
step returning without throwing.  What remains is the threshold
gate. -/
theorem run_reduce (inp : Inputs) (f : FetchOutcome) (pub : PubEnv)
    (stats : HealthSnapshot) (n₄ : JsNum) (r : String)
    (w : List String) (cs : Option (List Comment))
    (hkey : ¬ inp.apiKey = "")
    (hok : getHealthStats f = Except.ok stats)
    (h4 : stats.success_rate = JsField.num n₄)
    (hr : generateReport stats = Except.ok r)
    (hps : publishStep (inp.postComment = "true") inp.githubToken pub r
      = Except.ok (w, cs)) :
    run inp f pub =
      if decide (inp.failOnUnhealthy = "true")
          && stats.success_rate.ltB (parseFloat
            (if inp.failThreshold = "" then "90" else inp.failThreshold)) then
        { outputs := [("status", determineStatus stats.success_rate stats.dlq_count),
            ("success-rate", n₄.toFixed2),
            ("total-events", stats.total_events.toCommandValue),
            ("delivered-events", stats.delivered_events.toCommandValue),
            ("failed-events", stats.failed_events.toCommandValue),
            ("dlq-count", stats.dlq_count.toCommandValue),
            ("endpoints-checked", stats.endpoints_count.toCommandValue)]
            ++ [("report", r)],
          warnings := w,
          failed := some ("Webhook health check failed: success rate " ++ n₄.toFixed2
            ++ "% is below threshold "
            ++ (parseFloat (if inp.failThreshold = "" then "90"
                  else inp.failThreshold)).toStringJs ++ "%"),
          comments := cs }
      else
        { outputs := [("status", determineStatus stats.success_rate stats.dlq_count),
            ("success-rate", n₄.toFixed2),
            ("total-events", stats.total_events.toCommandValue),
            ("delivered-events", stats.delivered_events.toCommandValue),
            ("failed-events", stats.failed_events.toCommandValue),
            ("dlq-count", stats.dlq_count.toCommandValue),
            ("endpoints-checked", stats.endpoints_count.toCommandValue)]
            ++ [("report", r)],
          warnings := w, failed := none, comments := cs } := by
  simp only [run, if_neg hkey, hok, h4, JsField.callToFixed2, hr, hps]

/-- C5: every failure of the health fetch — a rejected request, a
non-2xx response, or an unparseable body, i.e. any
`getHealthStats` error — marks the run failed with the top-level catch
message wrapping the underlying error message, and no output is set
and no warning logged. -/
theorem C5_fetch_failure_fatal_no_outputs :
    ∀ (inp : Inputs) (f : FetchOutcome) (pub : PubEnv) (msg : String),
      ¬ inp.apiKey = "" →
      getHealthStats f = Except.error msg →
      (run inp f pub).failed = some ("Action failed: " ++ msg)
      ∧ (run inp f pub).outputs = []
      ∧ (run inp f pub).warnings = [] := by
  intro inp f pub msg hkey herr
  simp [run, if_neg hkey, herr]

/-- C5 witness, scenario D: an HTTP 500 with body "internal error"
produces the `ApiError`-style message carrying the status and body;
the run fails with it and sets no outputs. -/
theorem C5_fetch_failure_witness :
    getHealthStats resp500 = Except.error "API request failed: 500 - internal error"
    ∧ (run inpGate resp500 PubEnv.notPR).failed
        = some "Action failed: API request failed: 500 - internal error"
    ∧ (run inpGate resp500 PubEnv.notPR).outputs = [] :=
  ⟨rfl,
   (C5_fetch_failure_fatal_no_outputs inpGate resp500 PubEnv.notPR
      "API request failed: 500 - internal error" (by decide) rfl).1,
   (C5_fetch_failure_fatal_no_outputs inpGate resp500 PubEnv.notPR
      "API request failed: 500 - internal error" (by decide) rfl).2.1⟩

/-- C2 counterexample: a healthy snapshot (threshold gate off),
post-comment requested, but the comment API throws: the run is marked
failed with the publish error and no warning is logged, while the
identical run whose publish succeeds ends with no failure.  So a
publish failure is not caught locally as a warning and does change the
run's pass/fail determination. -/
theorem C2_counterexample_publish_failure_fails_run :
    (run inpPub (resp200of stats995) (PubEnv.apiFail "boom")).failed
      = some "Action failed: boom"
    ∧ (run inpPub (resp200of stats995) (PubEnv.apiFail "boom")).warnings = []
    ∧ (run inpPub (resp200of stats995) (PubEnv.pr [] 1)).failed = none :=
  ⟨by decide, by decide, by decide⟩

/-- C2 amended: a failure raised while publishing the PR comment
propagates to the top-level catch: the eight outputs already set
remain set, but the run is marked failed with
`Action failed: <publish error>` (no warning), and the threshold gate
never runs. -/
theorem C2_amended_publish_failure_propagates :
    ∀ (inp : Inputs) (f : FetchOutcome) (stats : HealthSnapshot)
      (n₁ n₂ n₃ n₄ n₅ : JsNum) (msg : String),
      ¬ inp.apiKey = "" →
      getHealthStats f = Except.ok stats →
      stats.total_events = .num n₁ →
      stats.delivered_events = .num n₂ →
      stats.failed_events = .num n₃ →
      stats.success_rate = .num n₄ →
      stats.dlq_count = .num n₅ →
      inp.postComment = "true" →
      ¬ inp.githubToken = "" →
      (run inp f (PubEnv.apiFail msg)).failed = some ("Action failed: " ++ msg)
      ∧ (run inp f (PubEnv.apiFail msg)).outputs.map Prod.fst = eightKeys
      ∧ (run inp f (PubEnv.apiFail msg)).warnings = [] := by
  intro inp f stats n₁ n₂ n₃ n₄ n₅ msg hkey hok h1 h2 h3 h4 h5 hpc htok
  obtain ⟨r, hr⟩ := generateReport_ok_of_num stats n₁ n₂ n₃ n₄ n₅ h1 h2 h3 h4 h5
  have hps : publishStep (inp.postComment = "true") inp.githubToken
      (PubEnv.apiFail msg) r = Except.error msg := by
    simp [publishStep, hpc, htok]
  simp [run, if_neg hkey, hok, h4, JsField.callToFixed2, hr, hps, eightKeys]

/-- C2 amended, witness: the concrete publish-failing run of the
counterexample indeed keeps all eight outputs while failing with the
wrapped publish error. -/
theorem C2_amended_witness :
    (run inpPub (resp200of stats995) (PubEnv.apiFail "boom")).failed
      = some "Action failed: boom"
    ∧ (run inpPub (resp200of stats995) (PubEnv.apiFail "boom")).outputs.map Prod.fst
      = eightKeys :=
  ⟨(C2_amended_publish_failure_propagates inpPub (resp200of stats995) stats995
      (.fin 1000) (.fin 995) (.fin 5) (.fin (Rat.divInt 199 2)) (.fin 0) "boom"
      (by decide) rfl rfl rfl rfl rfl rfl rfl (by decide)).1,
   (C2_amended_publish_failure_propagates inpPub (resp200of stats995) stats995
      (.fin 1000) (.fin 995) (.fin 5) (.fin (Rat.divInt 199 2)) (.fin 0) "boom"
      (by decide) rfl rfl rfl rfl rfl rfl rfl (by decide)).2.1⟩

/-- C3 counterexample: with the gate condition satisfied (rate 80 below
threshold 90, fail-on-unhealthy enabled) but the comment API throwing,
the run fails with the publish error instead of a message citing the
actual and threshold rates — the message does not even contain
"80.00".  This refutes the claim as stated, which promises the
threshold message for every successful fetch meeting the gate
condition. -/
theorem C3_counterexample_publish_failure_masks_gate :
    (run inpPub (resp200of stats80) (PubEnv.apiFail "boom")).failed
      = some "Action failed: boom"
    ∧ strIncludes "Action failed: boom" "80.00" = false :=
  ⟨by decide, by decide⟩

/-- C3 amended: provided the publish step does not throw, for every
successful fetch whose numeric fields are present: when
fail-on-unhealthy is enabled and the success rate is below the parsed
threshold, the run is marked failed by the gate message citing the
actual rate to two decimals and the threshold, with all eight outputs
still populated; otherwise the run ends with no failure — even when the
status is degraded or unhealthy. -/
theorem C3_amended_threshold_gate :
    ∀ (inp : Inputs) (f : FetchOutcome) (pub : PubEnv) (stats : HealthSnapshot)
      (n₁ n₂ n₃ n₄ n₅ : JsNum),
      ¬ inp.apiKey = "" →
      getHealthStats f = Except.ok stats →
      stats.total_events = .num n₁ →
      stats.delivered_events = .num n₂ →
      stats.failed_events = .num n₃ →
      stats.success_rate = .num n₄ →
      stats.dlq_count = .num n₅ →
      (∀ msg, pub ≠ PubEnv.apiFail msg) →
      ((inp.failOnUnhealthy = "true"
          ∧ stats.success_rate.ltB (parseFloat
              (if inp.failThreshold = "" then "90" else inp.failThreshold)) = true →
        (run inp f pub).failed
          = some ("Webhook health check failed: success rate " ++ n₄.toFixed2
              ++ "% is below threshold "
              ++ (parseFloat (if inp.failThreshold = "" then "90"
                    else inp.failThreshold)).toStringJs ++ "%")
        ∧ (run inp f pub).outputs.map Prod.fst = eightKeys)
      ∧ (¬(inp.failOnUnhealthy = "true"
          ∧ stats.success_rate.ltB (parseFloat
              (if inp.failThreshold = "" then "90" else inp.failThreshold)) = true) →
        (run inp f pub).failed = none
        ∧ (run inp f pub).outputs.map Prod.fst = eightKeys)) := by
  intro inp f pub stats n₁ n₂ n₃ n₄ n₅ hkey hok h1 h2 h3 h4 h5 hpub
  obtain ⟨r, hr⟩ := generateReport_ok_of_num stats n₁ n₂ n₃ n₄ n₅ h1 h2 h3 h4 h5
  obtain ⟨w, cs, hps⟩ :=
    publishStep_ok_of_safe (inp.postComment = "true") inp.githubToken pub r hpub
  have hrun := run_reduce inp f pub stats n₄ r w cs hkey hok h4 hr hps
  constructor
  · intro hg
    have hguard : (decide (inp.failOnUnhealthy = "true")
        && stats.success_rate.ltB (parseFloat
          (if inp.failThreshold = "" then "90" else inp.failThreshold))) = true := by
      simp [hg.1, hg.2]
    rw [hrun]
    simp [hguard, eightKeys]
  · intro hg
    have hguard : (decide (inp.failOnUnhealthy = "true")
        && stats.success_rate.ltB (parseFloat
          (if inp.failThreshold = "" then "90" else inp.failThreshold))) = false := by
      by_cases hF : inp.failOnUnhealthy = "true"
      · have hlt : stats.success_rate.ltB (parseFloat
            (if inp.failThreshold = "" then "90" else inp.failThreshold)) = false := by
          cases hv : stats.success_rate.ltB (parseFloat
              (if inp.failThreshold = "" then "90" else inp.failThreshold)) with
          | false => rfl
          | true => exact absurd ⟨hF, hv⟩ hg
        simp [hlt]
      · simp [hF]
    rw [hrun]
    simp [hguard, eightKeys]

/-- C3 amended, witness (scenario C): rate 80 with threshold 90 and the
gate enabled fails the run with the message citing 80.00 and 90, and
all eight outputs are populated. -/
theorem C3_amended_witness :
    (run inpGate (resp200of stats80) PubEnv.notPR).failed
      = some "Webhook health check failed: success rate 80.00% is below threshold 90%"
    ∧ (run inpGate (resp200of stats80) PubEnv.notPR).outputs.map Prod.fst = eightKeys := by
  have h := (C3_amended_threshold_gate inpGate (resp200of stats80) PubEnv.notPR stats80
      (.fin 1000) (.fin 800) (.fin 200) (.fin 80) (.fin 10)
      (by decide) rfl rfl rfl rfl rfl rfl
      (fun msg hh => by cases hh)).1 ⟨rfl, by decide⟩
  exact ⟨h.1, h.2⟩

/-- C4 counterexample: post-comment requested with an empty
github-token, a healthy fetch, and the gate disabled: the run does not
fail — it logs the warning and succeeds — refuting the claim that a
missing github-token is fatal to the run. -/
theorem C4_counterexample_missing_token_not_fatal :
    (run inpNoTok (resp200of stats995) (PubEnv.pr [] 1)).failed = none
    ∧ (run inpNoTok (resp200of stats995) (PubEnv.pr [] 1)).warnings
      = ["github-token is required to post PR comments"] :=
  ⟨by decide, by decide⟩

/-- C4 amended: when post-comment is true but github-token is empty,
the run logs exactly the warning
"github-token is required to post PR comments", publishing is skipped
(failure status and outputs match the same run in a non-PR context,
whatever the GitHub environment), and the missing token never by
itself fails the run. -/
theorem C4_amended_missing_token_warns :
    ∀ (inp : Inputs) (f : FetchOutcome) (pub : PubEnv) (stats : HealthSnapshot)
      (n₁ n₂ n₃ n₄ n₅ : JsNum),
      ¬ inp.apiKey = "" →
      getHealthStats f = Except.ok stats →
      stats.total_events = .num n₁ →
      stats.delivered_events = .num n₂ →
      stats.failed_events = .num n₃ →
      stats.success_rate = .num n₄ →
      stats.dlq_count = .num n₅ →
      inp.postComment = "true" →
      inp.githubToken = "" →
      (run inp f pub).warnings = ["github-token is required to post PR comments"]
      ∧ (run inp f pub).failed = (run inp f PubEnv.notPR).failed
      ∧ (run inp f pub).outputs = (run inp f PubEnv.notPR).outputs := by
  intro inp f pub stats n₁ n₂ n₃ n₄ n₅ hkey hok h1 h2 h3 h4 h5 hpc htok
  obtain ⟨r, hr⟩ := generateReport_ok_of_num stats n₁ n₂ n₃ n₄ n₅ h1 h2 h3 h4 h5
  have hps : ∀ (p : PubEnv), publishStep (inp.postComment = "true") inp.githubToken p r
      = Except.ok (["github-token is required to post PR comments"], p.initial) := by
    intro p
    simp [publishStep, hpc, htok]
  have hrun1 := run_reduce inp f pub stats n₄ r
    ["github-token is required to post PR comments"] pub.initial hkey hok h4 hr (hps pub)
  have hrun2 := run_reduce inp f PubEnv.notPR stats n₄ r
    ["github-token is required to post PR comments"] (PubEnv.notPR.initial) hkey hok h4 hr
    (hps PubEnv.notPR)
  rw [hrun1, hrun2]
  by_cases hg : (decide (inp.failOnUnhealthy = "true")
      && stats.success_rate.ltB (parseFloat
        (if inp.failThreshold = "" then "90" else inp.failThreshold))) = true
  · simp [hg]
  · simp [hg]

/-- C4 amended, witness: the concrete token-less run of the
counterexample logs the warning and has the same failure status as the
non-PR run. -/
theorem C4_amended_witness :
    (run inpNoTok (resp200of stats995) (PubEnv.pr [] 1)).warnings
      = ["github-token is required to post PR comments"]
    ∧ (run inpNoTok (resp200of stats995) (PubEnv.pr [] 1)).failed
      = (run inpNoTok (resp200of stats995) PubEnv.notPR).failed :=
  ⟨(C4_amended_missing_token_warns inpNoTok (resp200of stats995) (PubEnv.pr [] 1) stats995
      (.fin 1000) (.fin 995) (.fin 5) (.fin (Rat.divInt 199 2)) (.fin 0)
      (by decide) rfl rfl rfl rfl rfl rfl rfl rfl).1,
   (C4_amended_missing_token_warns inpNoTok (resp200of stats995) (PubEnv.pr [] 1) stats995
      (.fin 1000) (.fin 995) (.fin 5) (.fin (Rat.divInt 199 2)) (.fin 0)
      (by decide) rfl rfl rfl rfl rfl rfl rfl rfl).2.1⟩

/-- C10: when the fail-threshold input is a string `parseFloat` cannot
parse, the parsed threshold is NaN; the gate comparison
`successRate < failThreshold` is then false for every value of the
success-rate field, so a run whose fetch succeeded and whose publish
step does not throw is never marked failed by the threshold gate — it
ends with no failure at all (even at 0% success with fail-on-unhealthy
enabled), instead of reporting the invalid configuration. -/
theorem C10_nan_threshold_never_fails :
    ∀ (s : String), parseFloat s = JsNum.nan →
      (∀ rate : JsField, rate.ltB (parseFloat s) = false)
      ∧ (∀ (inp : Inputs) (f : FetchOutcome) (pub : PubEnv) (stats : HealthSnapshot)
          (n₁ n₂ n₃ n₄ n₅ : JsNum),
          inp.failThreshold = s →
          ¬ s = "" →
          ¬ inp.apiKey = "" →
          getHealthStats f = Except.ok stats →
          stats.total_events = .num n₁ →
          stats.delivered_events = .num n₂ →
          stats.failed_events = .num n₃ →
          stats.success_rate = .num n₄ →
          stats.dlq_count = .num n₅ →
          (∀ msg, pub ≠ PubEnv.apiFail msg) →
          (run inp f pub).failed = none) := by
  intro s hs
  constructor
  · intro rate
    rw [hs]
    cases rate with
    | undef => rfl
    | null => rfl
    | num n => cases n <;> rfl
  · intro inp f pub stats n₁ n₂ n₃ n₄ n₅ hfs hne hkey hok h1 h2 h3 h4 h5 hpub
    obtain ⟨r, hr⟩ := generateReport_ok_of_num stats n₁ n₂ n₃ n₄ n₅ h1 h2 h3 h4 h5
    obtain ⟨w, cs, hps⟩ :=
      publishStep_ok_of_safe (inp.postComment = "true") inp.githubToken pub r hpub
    have hrun := run_reduce inp f pub stats n₄ r w cs hkey hok h4 hr hps
    have hth : parseFloat (if inp.failThreshold = "" then "90" else inp.failThreshold)
        = JsNum.nan := by
      rw [hfs, if_neg hne, hs]
    have hlt : stats.success_rate.ltB JsNum.nan = false := by
      cases hsr : stats.success_rate with
      | undef => rfl
      | null => rfl
      | num n => cases n <;> rfl
    rw [hrun, hth]
    simp [hlt]

/-- C10 witness: "abc" parses to NaN, the gate comparison at a 0%
success rate is false, and the concrete run with fail-on-unhealthy
enabled and threshold "abc" ends with no failure. -/
theorem C10_nan_threshold_witness :
    parseFloat "abc" = JsNum.nan
    ∧ JsField.ltB (.num (.fin 0)) (parseFloat "abc") = false
    ∧ (run inpBadThreshold (resp200of stats0) PubEnv.notPR).failed = none :=
  ⟨by decide,
   (C10_nan_threshold_never_fails "abc" (by decide)).1 (.num (.fin 0)),
   (C10_nan_threshold_never_fails "abc" (by decide)).2 inpBadThreshold
     (resp200of stats0) PubEnv.notPR stats0
     (.fin 1000) (.fin 0) (.fin 1000) (.fin 0) (.fin 50)
     rfl (by decide) (by decide) rfl rfl rfl rfl rfl rfl
     (fun msg hh => by cases hh)⟩

end WH
